import Mathlib

/-!
Shallow embedding of `src/awn_leaf_wetness.py` (leaf wetness estimation).

The source is a single pure per-row arithmetic pipeline
`estimate_leaf_wetness(data, config)` over a pandas DataFrame.  We embed
the numeric computation over `ℚ` (idealised real arithmetic).  The four
transcendental operations used by the source (`np.exp`, `np.log`,
`** 0.5`, `** 0.6`) are abstracted into an `Oracle` record of rational
functions so that every definition stays computable; theorems either hold
for every oracle or carry explicit positivity hypotheses on the oracle
fields that the genuine real functions satisfy.
-/

namespace LeafWetness

/-- Abstraction of the transcendental operations that the source applies
through numpy: `oexp` stands for `np.exp`, `olog` for `np.log`,
`opow05 x` for `x ** 0.5` and `opow06 x` for `x ** 0.6`. -/
structure Oracle where
  oexp : ℚ → ℚ
  olog : ℚ → ℚ
  opow05 : ℚ → ℚ
  opow06 : ℚ → ℚ

/-- Embedding of the numeric literal `np.pi` (an IEEE double in the
source, carried here as the corresponding decimal constant). -/
def npPi : ℚ := 3.141592653589793

/-- Configuration dictionary (source lines 19 to 46): model parameters and
physical constants, one field per dictionary key. -/
structure Config where
  Z_reference : ℚ
  Zc : ℚ
  alpha : ℚ
  LAI : ℚ
  Wmax : ℚ
  Wf : ℚ
  shape_scale_film_cf : ℚ
  shape_scale_drop_cd : ℚ
  dimension_of_leaf_m : ℚ
  width_of_leaf_m : ℚ
  n : ℚ
  mean_length_of_pore_l : ℚ
  diameter_of_pore_d : ℚ
  critical_DPD : ℚ
  psychr_constant_mbar : ℚ
  density_of_air_g_cm3 : ℚ
  specific_heat_of_air_Jg_C : ℚ
  latent_heat_of_vaporization_J_g : ℚ
  kinematic_viscosity_of_air : ℚ
  emissivity : ℚ
  stefan_boltzmann_constant : ℚ
  density_of_air_kg_m3 : ℚ
  specific_heat_of_air_J_kg_K : ℚ
  diffusion_coefficient_of_water_vapor_D : ℚ
  latent_heat_of_condensation_J_kg : ℚ
  psychrometer_constant_Pa_K : ℚ

/-- Default configuration values, copied from the `config` dictionary of
the source (lines 19 to 46). -/
def defaultConfig : Config where
  Z_reference := 200
  Zc := 150
  alpha := 1.3
  LAI := 2.88
  Wmax := 0.5
  Wf := 0.3
  shape_scale_film_cf := 1.78577026808484
  shape_scale_drop_cd := 4.23057517532205
  dimension_of_leaf_m := 0.126563029533657
  width_of_leaf_m := 0.12
  n := 196232004
  mean_length_of_pore_l := 0.000025
  diameter_of_pore_d := 0.00000623
  critical_DPD := 1.845
  psychr_constant_mbar := 0.670680828
  density_of_air_g_cm3 := 0.001225
  specific_heat_of_air_Jg_C := 1.012
  latent_heat_of_vaporization_J_g := 2450
  kinematic_viscosity_of_air := 0.0000156
  emissivity := 0.99
  stefan_boltzmann_constant := 5.67037e-8
  density_of_air_kg_m3 := 1.293
  specific_heat_of_air_J_kg_K := 1005
  diffusion_coefficient_of_water_vapor_D := 0.0000212
  latent_heat_of_condensation_J_kg := 2257000
  psychrometer_constant_Pa_K := 0.245670633

/-- One input weather row: the five required raw fields
(`RELATIVE_HUMIDITY_pct` embeds the source column `RELATIVE_HUMIDITY_%`,
whose name is not a legal identifier). -/
structure RowIn where
  AIR_TEMP_F : ℚ
  DEWPOINT_F : ℚ
  WIND_SPEED_2M_MPH : ℚ
  RELATIVE_HUMIDITY_pct : ℚ
  PRECIP_INCHES : ℚ

/- Derived configuration scalars, source lines 83 to 88. -/

/-- Roughness length `Zo = Z_reference * 0.1` (source line 83). -/
def Zo (cfg : Config) : ℚ := cfg.Z_reference * 0.1

/-- Zero plane displacement `D = 0.66 * Zc` (source line 84). -/
def D (cfg : Config) : ℚ := 0.66 * cfg.Zc

/-- Leaf water storage `W = Wmax * Wf` (source line 85). -/
def W (cfg : Config) : ℚ := cfg.Wmax * cfg.Wf

/-- Blended shape scale `c` (source line 86). -/
def c (cfg : Config) : ℚ :=
  cfg.Wmax * cfg.shape_scale_film_cf + (1 - cfg.Wmax) * cfg.shape_scale_drop_cd

/-- Leaf surface area (source line 87). -/
def Surface_Area (cfg : Config) : ℚ := cfg.width_of_leaf_m * cfg.dimension_of_leaf_m

/-- Stomatal resistance `rS` (source line 88). -/
def rS (cfg : Config) : ℚ :=
  (4 * (cfg.mean_length_of_pore_l + (npPi * cfg.diameter_of_pore_d) / 8)) /
    (npPi * cfg.n * cfg.diameter_of_pore_d ^ 2 * cfg.diffusion_coefficient_of_water_vapor_D)

/- Per-row derived columns, source lines 91 to 173, one definition per
assigned DataFrame column, in source order. -/

/-- Column `AIR_TEMP_C` (source line 91). -/
def AIR_TEMP_C (r : RowIn) : ℚ := (r.AIR_TEMP_F - 32) * 5 / 9

/-- Column `DEWPOINT_C` (source line 92). -/
def DEWPOINT_C (r : RowIn) : ℚ := (r.DEWPOINT_F - 32) * 5 / 9

/-- Column `DPD` (source line 93). -/
def DPD (r : RowIn) : ℚ := AIR_TEMP_C r - DEWPOINT_C r

/-- Column `SVP` (source line 96). -/
def SVP (O : Oracle) (r : RowIn) : ℚ :=
  0.6108 * O.oexp ((17.27 * AIR_TEMP_C r) / (AIR_TEMP_C r + 237.3))

/-- Column `Slope_kPa` (source line 99). -/
def Slope_kPa (O : Oracle) (r : RowIn) : ℚ :=
  (4098 * SVP O r) / (AIR_TEMP_C r + 237.3) ^ 2

/-- Column `Slope_mbar` (source line 100). -/
def Slope_mbar (O : Oracle) (r : RowIn) : ℚ := Slope_kPa O r * 10

/-- Column `AVP` (source line 103). -/
def AVP (O : Oracle) (r : RowIn) : ℚ := SVP O r * (r.RELATIVE_HUMIDITY_pct / 100)

/-- Column `Uz` (source line 106). -/
def Uz (r : RowIn) : ℚ := 2682.4 * r.WIND_SPEED_2M_MPH

/-- Column `Uc` (source line 109). -/
def Uc (O : Oracle) (cfg : Config) (r : RowIn) : ℚ :=
  Uz r * (O.olog ((cfg.Zc - D cfg) / Zo cfg) / O.olog ((cfg.Z_reference - D cfg) / Zo cfg)) *
    (1 + cfg.alpha * ((1 - cfg.Zc) / cfg.Z_reference)) ^ (-2 : ℤ)

/-- Column `Transfer_Coefficient (cm min^-1)` (source line 112). -/
def Transfer_Coefficient (O : Oracle) (cfg : Config) (r : RowIn) : ℚ :=
  c cfg * O.opow05 (Uc O cfg r)

/-- Column `Ep` (source lines 115 to 117). -/
def Ep (O : Oracle) (cfg : Config) (r : RowIn) : ℚ :=
  (Slope_mbar O r / (cfg.latent_heat_of_vaporization_J_g * (Slope_mbar O r + cfg.psychr_constant_mbar))) *
    (cfg.density_of_air_g_cm3 * cfg.specific_heat_of_air_Jg_C * (Transfer_Coefficient O cfg r / Slope_mbar O r)) *
    ((SVP O r - AVP O r) * 10)

/-- Column `E (cm/min)` (source line 120). -/
def E_cm_min (O : Oracle) (cfg : Config) (r : RowIn) : ℚ := Ep O cfg r * W cfg

/-- Column `Wind Speed (m/s)` (source line 123): mph to m/s with the floor
`0.001` for non-positive wind speed. -/
def Wind_Speed_ms (r : RowIn) : ℚ :=
  if r.WIND_SPEED_2M_MPH > 0 then 0.44704 * r.WIND_SPEED_2M_MPH else 0.001

/-- Column `Reynolds Number` (source line 126). -/
def Reynolds_Number (cfg : Config) (r : RowIn) : ℚ :=
  (Wind_Speed_ms r * cfg.dimension_of_leaf_m) / cfg.kinematic_viscosity_of_air

/-- Column `Nusselt Number` (source line 129). -/
def Nusselt_Number (O : Oracle) (cfg : Config) (r : RowIn) : ℚ :=
  0.72 * O.opow06 (Reynolds_Number cfg r)

/-- Column `rB (s/m)` (source line 132). -/
def rB (O : Oracle) (cfg : Config) (r : RowIn) : ℚ :=
  cfg.dimension_of_leaf_m / (0.0000215 * Nusselt_Number O cfg r)

/-- Column `hLW` (source line 135). -/
def hLW (cfg : Config) (r : RowIn) : ℚ :=
  4 * cfg.emissivity * cfg.stefan_boltzmann_constant * (AIR_TEMP_C r + 273.15) ^ 3

/-- Column `hH` (source line 138). -/
def hH (O : Oracle) (cfg : Config) (r : RowIn) : ℚ :=
  (cfg.density_of_air_kg_m3 * cfg.specific_heat_of_air_J_kg_K) / rB O cfg r

/-- Column `Slope_Pa_K` (source line 141). -/
def Slope_Pa_K (O : Oracle) (r : RowIn) : ℚ := (Slope_kPa O r * 1000) / 273

/-- Column `hET` (source line 144). -/
def hET (O : Oracle) (cfg : Config) (r : RowIn) : ℚ :=
  cfg.density_of_air_kg_m3 * cfg.specific_heat_of_air_J_kg_K *
    (Slope_Pa_K O r / (cfg.psychrometer_constant_Pa_K * (rB O cfg r + rS cfg)))

/-- Column `Leaf Heat Transfer Coefficient (W/m^2/K)` (source line 147). -/
def Leaf_Heat_Transfer_Coefficient (O : Oracle) (cfg : Config) (r : RowIn) : ℚ :=
  hLW cfg r + hH O cfg r + hET O cfg r

/-- Column `Rhe (J/s)` (source line 150). -/
def Rhe (O : Oracle) (cfg : Config) (r : RowIn) : ℚ :=
  Leaf_Heat_Transfer_Coefficient O cfg r * Surface_Area cfg * (AIR_TEMP_C r - DEWPOINT_C r)

/-- Column `Potential condensation of dew (g/s)` (source line 153). -/
def Potential_condensation_gs (O : Oracle) (cfg : Config) (r : RowIn) : ℚ :=
  (Rhe O cfg r / cfg.latent_heat_of_condensation_J_kg) * 1000

/-- Column `Potential condensation of dew (mm)` as first assigned on
source line 154, before the dew point depression policy overwrites it. -/
def Potential_condensation_mm_raw (O : Oracle) (cfg : Config) (r : RowIn) : ℚ :=
  (Potential_condensation_gs O cfg r / (Surface_Area cfg * 10000)) * 10 * 60 * 15 * 2

/-- Column `Potential condensation of dew (mm)` after the `np.where`
policy of source line 157: zero unless `DPD < critical_DPD`. -/
def Potential_condensation_mm (O : Oracle) (cfg : Config) (r : RowIn) : ℚ :=
  if DPD r < cfg.critical_DPD then Potential_condensation_mm_raw O cfg r else 0

/-- Column `Rain Interception (mm)` (source line 160): `np.where` on
`PRECIP_INCHES > 0`. -/
def Rain_Interception_mm (r : RowIn) : ℚ :=
  if r.PRECIP_INCHES > 0 then 0.6 else 0

/-- Column `Evaporation (mm)` (source line 163). -/
def Evaporation_mm (O : Oracle) (cfg : Config) (r : RowIn) : ℚ :=
  E_cm_min O cfg r * 10 * 15

/-- Column `Estimated Leaf Wetness (mm)` as first assigned on source
lines 166 to 170: the per-row lambda with the freezing cutoff. -/
def Estimated_Leaf_Wetness_mm_pre (O : Oracle) (cfg : Config) (r : RowIn) : ℚ :=
  if r.AIR_TEMP_F > 32 then
    (Potential_condensation_mm O cfg r + Rain_Interception_mm r) - Evaporation_mm O cfg r
  else 0

/-- Column `Estimated Leaf Wetness (mm)` after the non-negativity
`np.where` clamp of source line 173. -/
def Estimated_Leaf_Wetness_mm (O : Oracle) (cfg : Config) (r : RowIn) : ℚ :=
  if Estimated_Leaf_Wetness_mm_pre O cfg r > 0 then Estimated_Leaf_Wetness_mm_pre O cfg r else 0

/-- Every column of the enriched DataFrame after `estimate_leaf_wetness`
has run: the five raw input columns plus each derived column, named in
assignment order.  The source enriches the frame in place; here each
stage contributes one new field and no stage rewrites a raw field. -/
structure RowFull where
  AIR_TEMP_F : ℚ
  DEWPOINT_F : ℚ
  WIND_SPEED_2M_MPH : ℚ
  RELATIVE_HUMIDITY_pct : ℚ
  PRECIP_INCHES : ℚ
  air_temp_c : ℚ
  dewpoint_c : ℚ
  dpd : ℚ
  svp : ℚ
  slope_kPa : ℚ
  slope_mbar : ℚ
  avp : ℚ
  uz : ℚ
  uc : ℚ
  transfer_coefficient : ℚ
  ep : ℚ
  e_cm_min : ℚ
  wind_speed_ms : ℚ
  reynolds_number : ℚ
  nusselt_number : ℚ
  rb : ℚ
  hlw : ℚ
  hh : ℚ
  slope_Pa_K : ℚ
  het : ℚ
  leaf_heat_transfer_coefficient : ℚ
  rhe : ℚ
  potential_condensation_gs : ℚ
  potential_condensation_mm : ℚ
  rain_interception_mm : ℚ
  evaporation_mm : ℚ
  estimated_leaf_wetness_mm : ℚ

/-- The whole per-row pipeline (source lines 91 to 173): the final state
of every DataFrame column for one row.  Columns that the source assigns
twice (`Potential condensation of dew (mm)` on lines 154/157 and
`Estimated Leaf Wetness (mm)` on lines 166/173) carry their final
value. -/
def enrich (O : Oracle) (cfg : Config) (r : RowIn) : RowFull where
  AIR_TEMP_F := r.AIR_TEMP_F
  DEWPOINT_F := r.DEWPOINT_F
  WIND_SPEED_2M_MPH := r.WIND_SPEED_2M_MPH
  RELATIVE_HUMIDITY_pct := r.RELATIVE_HUMIDITY_pct
  PRECIP_INCHES := r.PRECIP_INCHES
  air_temp_c := AIR_TEMP_C r
  dewpoint_c := DEWPOINT_C r
  dpd := DPD r
  svp := SVP O r
  slope_kPa := Slope_kPa O r
  slope_mbar := Slope_mbar O r
  avp := AVP O r
  uz := Uz r
  uc := Uc O cfg r
  transfer_coefficient := Transfer_Coefficient O cfg r
  ep := Ep O cfg r
  e_cm_min := E_cm_min O cfg r
  wind_speed_ms := Wind_Speed_ms r
  reynolds_number := Reynolds_Number cfg r
  nusselt_number := Nusselt_Number O cfg r
  rb := rB O cfg r
  hlw := hLW cfg r
  hh := hH O cfg r
  slope_Pa_K := Slope_Pa_K O r
  het := hET O cfg r
  leaf_heat_transfer_coefficient := Leaf_Heat_Transfer_Coefficient O cfg r
  rhe := Rhe O cfg r
  potential_condensation_gs := Potential_condensation_gs O cfg r
  potential_condensation_mm := Potential_condensation_mm O cfg r
  rain_interception_mm := Rain_Interception_mm r
  evaporation_mm := Evaporation_mm O cfg r
  estimated_leaf_wetness_mm := Estimated_Leaf_Wetness_mm O cfg r

/-- The five raw columns read back from an enriched frame, as a second
call of the estimator would read them. -/
def rawFields (f : RowFull) : RowIn where
  AIR_TEMP_F := f.AIR_TEMP_F
  DEWPOINT_F := f.DEWPOINT_F
  WIND_SPEED_2M_MPH := f.WIND_SPEED_2M_MPH
  RELATIVE_HUMIDITY_pct := f.RELATIVE_HUMIDITY_pct
  PRECIP_INCHES := f.PRECIP_INCHES

/-- One published output record (source line 176): the four input echoes
plus the two policy outputs. -/
structure RowOut where
  AIR_TEMP_F : ℚ
  DEWPOINT_F : ℚ
  WIND_SPEED_2M_MPH : ℚ
  RELATIVE_HUMIDITY_pct : ℚ
  potential_condensation_mm : ℚ
  estimated_leaf_wetness_mm : ℚ

/-- Projection of the published columns out of the enriched frame
(source line 176). -/
def publish (f : RowFull) : RowOut where
  AIR_TEMP_F := f.AIR_TEMP_F
  DEWPOINT_F := f.DEWPOINT_F
  WIND_SPEED_2M_MPH := f.WIND_SPEED_2M_MPH
  RELATIVE_HUMIDITY_pct := f.RELATIVE_HUMIDITY_pct
  potential_condensation_mm := f.potential_condensation_mm
  estimated_leaf_wetness_mm := f.estimated_leaf_wetness_mm

/-- One published output row for one input row. -/
def rowOut (O : Oracle) (cfg : Config) (r : RowIn) : RowOut :=
  publish (enrich O cfg r)

/-- The estimator `estimate_leaf_wetness(data, config)` (source lines 48
to 177): the whole pipeline applied row-wise, one output record per input
row, in order. -/
def estimate_leaf_wetness (O : Oracle) (cfg : Config) (data : List RowIn) : List RowOut :=
  data.map (rowOut O cfg)

/- Concrete instantiations used by the witness theorems. -/

/-- Concrete oracle whose transcendental stand-ins are constantly `1`;
it satisfies every positivity hypothesis the theorems place on oracles. -/
def oracleOne : Oracle where
  oexp := fun _ => 1
  olog := fun _ => 1
  opow05 := fun _ => 1
  opow06 := fun _ => 1

/-- The boundary scenario row of the specification:
`AIR_TEMP_F 70, DEWPOINT_F 50, WIND_SPEED_2M_MPH 5, RELATIVE_HUMIDITY 60,
PRECIP_INCHES 0`. -/
def rowBoundary : RowIn where
  AIR_TEMP_F := 70
  DEWPOINT_F := 50
  WIND_SPEED_2M_MPH := 5
  RELATIVE_HUMIDITY_pct := 60
  PRECIP_INCHES := 0

/-- A freezing row: `AIR_TEMP_F 30`, below the 32 F cutoff. -/
def rowFreezing : RowIn where
  AIR_TEMP_F := 30
  DEWPOINT_F := 28
  WIND_SPEED_2M_MPH := 5
  RELATIVE_HUMIDITY_pct := 90
  PRECIP_INCHES := 0.2

/-- A rainy row: `PRECIP_INCHES 0.1`, positive precipitation. -/
def rowRain : RowIn where
  AIR_TEMP_F := 70
  DEWPOINT_F := 50
  WIND_SPEED_2M_MPH := 5
  RELATIVE_HUMIDITY_pct := 60
  PRECIP_INCHES := 0.1

/-- A calm row: `WIND_SPEED_2M_MPH 0`, exercising the wind floor. -/
def rowCalm : RowIn where
  AIR_TEMP_F := 70
  DEWPOINT_F := 50
  WIND_SPEED_2M_MPH := 0
  RELATIVE_HUMIDITY_pct := 60
  PRECIP_INCHES := 0

/-- A temperature-inversion row: dew point above air temperature, so the
dew point depression is negative. -/
def rowInverted : RowIn where
  AIR_TEMP_F := 50
  DEWPOINT_F := 60
  WIND_SPEED_2M_MPH := 5
  RELATIVE_HUMIDITY_pct := 60
  PRECIP_INCHES := 0

/- Helper lemmas shared by the claim theorems. -/

/-- A numpy-style positive-part clamp is a `max` with zero. -/
lemma ite_gt_zero_eq_max (x : ℚ) : (if x > 0 then x else 0) = max 0 x := by
  rcases le_or_lt x 0 with h | h
  · rw [if_neg (not_lt.mpr h), max_eq_left h]
  · rw [if_pos h, max_eq_right h.le]

/-- The clamped wetness column is never negative. -/
lemma Estimated_Leaf_Wetness_mm_nonneg (O : Oracle) (cfg : Config) (r : RowIn) :
    0 ≤ Estimated_Leaf_Wetness_mm O cfg r := by
  unfold Estimated_Leaf_Wetness_mm
  split
  · linarith [show (0:ℚ) < Estimated_Leaf_Wetness_mm_pre O cfg r from by assumption]
  · exact le_rfl

/-- The published record carries the clamped wetness column. -/
lemma rowOut_wetness (O : Oracle) (cfg : Config) (r : RowIn) :
    (rowOut O cfg r).estimated_leaf_wetness_mm = Estimated_Leaf_Wetness_mm O cfg r := rfl

/-- The published record carries the policy-adjusted condensation column. -/
lemma rowOut_condensation (O : Oracle) (cfg : Config) (r : RowIn) :
    (rowOut O cfg r).potential_condensation_mm = Potential_condensation_mm O cfg r := rfl

/-- The converted wind speed is always strictly positive: either the
positive mph value scaled by 0.44704, or the 0.001 floor. -/
lemma Wind_Speed_ms_pos (r : RowIn) : 0 < Wind_Speed_ms r := by
  unfold Wind_Speed_ms
  split
  · have h : (0:ℚ) < r.WIND_SPEED_2M_MPH := by assumption
    linarith
  · norm_num

/-- With the default constants the Reynolds number is strictly positive
for every row. -/
lemma Reynolds_default_pos (r : RowIn) : 0 < Reynolds_Number defaultConfig r := by
  unfold Reynolds_Number
  exact div_pos (mul_pos (Wind_Speed_ms_pos r) (by norm_num [defaultConfig]))
    (by norm_num [defaultConfig])

/-- With the default constants the Nusselt number is strictly positive
for every row, for any oracle whose `** 0.6` stand-in preserves
positivity. -/
lemma Nusselt_default_pos (O : Oracle) (r : RowIn)
    (hpow : ∀ x : ℚ, 0 < x → 0 < O.opow06 x) :
    0 < Nusselt_Number O defaultConfig r :=
  mul_pos (by norm_num) (hpow _ (Reynolds_default_pos r))

/-- With the default constants the boundary layer resistance is strictly
positive for every row. -/
lemma rB_default_pos (O : Oracle) (r : RowIn)
    (hpow : ∀ x : ℚ, 0 < x → 0 < O.opow06 x) :
    0 < rB O defaultConfig r := by
  unfold rB
  exact div_pos (by norm_num [defaultConfig])
    (mul_pos (by norm_num) (Nusselt_default_pos O r hpow))

/-- With the default constants the convective coefficient `hH` is
strictly positive for every row. -/
lemma hH_default_pos (O : Oracle) (r : RowIn)
    (hpow : ∀ x : ℚ, 0 < x → 0 < O.opow06 x) :
    0 < hH O defaultConfig r :=
  div_pos (by norm_num [defaultConfig]) (rB_default_pos O r hpow)

/-- The saturation vapor pressure is strictly positive for any oracle
whose exponential stand-in is positive. -/
lemma SVP_pos (O : Oracle) (r : RowIn) (hexp : ∀ x : ℚ, 0 < O.oexp x) :
    0 < SVP O r :=
  mul_pos (by norm_num) (hexp _)

/-- The slope of the saturation vapor pressure curve is strictly positive
whenever the Celsius temperature is not exactly −237.3. -/
lemma Slope_kPa_pos (O : Oracle) (r : RowIn) (hexp : ∀ x : ℚ, 0 < O.oexp x)
    (hT : AIR_TEMP_C r + 237.3 ≠ 0) : 0 < Slope_kPa O r := by
  unfold Slope_kPa
  exact div_pos (mul_pos (by norm_num) (SVP_pos O r hexp))
    ((sq_nonneg _).lt_of_ne (Ne.symm (pow_ne_zero 2 hT)))

/-- The Pa/K form of the slope inherits strict positivity. -/
lemma Slope_Pa_K_pos (O : Oracle) (r : RowIn) (hexp : ∀ x : ℚ, 0 < O.oexp x)
    (hT : AIR_TEMP_C r + 237.3 ≠ 0) : 0 < Slope_Pa_K O r := by
  unfold Slope_Pa_K
  exact div_pos (mul_pos (Slope_kPa_pos O r hexp hT) (by norm_num)) (by norm_num)

/-- The stomatal resistance computed from the default constants is
strictly positive. -/
lemma rS_default_pos : 0 < rS defaultConfig := by
  norm_num [rS, defaultConfig, npPi]

/-- With the default constants the evapotranspirative coefficient `hET`
is strictly positive for every row away from −237.3 Celsius. -/
lemma hET_default_pos (O : Oracle) (r : RowIn)
    (hexp : ∀ x : ℚ, 0 < O.oexp x) (hpow : ∀ x : ℚ, 0 < x → 0 < O.opow06 x)
    (hT : AIR_TEMP_C r + 237.3 ≠ 0) : 0 < hET O defaultConfig r := by
  unfold hET
  refine mul_pos (by norm_num [defaultConfig]) ?_
  refine div_pos (Slope_Pa_K_pos O r hexp hT) ?_
  exact mul_pos (by norm_num [defaultConfig])
    (add_pos (rB_default_pos O r hpow) rS_default_pos)

/-- With the default constants the long-wave coefficient `hLW` is
strictly positive above absolute zero. -/
lemma hLW_default_pos (r : RowIn) (hT : -273.15 < AIR_TEMP_C r) :
    0 < hLW defaultConfig r := by
  unfold hLW
  have h3 : (0:ℚ) < (AIR_TEMP_C r + 273.15) ^ 3 := pow_pos (by linarith) 3
  exact mul_pos (by norm_num [defaultConfig]) h3

/- Claim theorems. -/

/-- C1: for every input row, the published `Estimated Leaf Wetness (mm)`
equals the non-negative part of (condensation + rain interception −
evaporation) whenever `AIR_TEMP_F > 32`, equals `0` whenever
`AIR_TEMP_F ≤ 32` regardless of all other inputs, and is never
negative. -/
theorem C1_final_wetness (O : Oracle) (cfg : Config) (r : RowIn) :
    (32 < r.AIR_TEMP_F →
      (rowOut O cfg r).estimated_leaf_wetness_mm =
        max 0 ((rowOut O cfg r).potential_condensation_mm + Rain_Interception_mm r -
          Evaporation_mm O cfg r)) ∧
    (r.AIR_TEMP_F ≤ 32 → (rowOut O cfg r).estimated_leaf_wetness_mm = 0) ∧
    0 ≤ (rowOut O cfg r).estimated_leaf_wetness_mm := by
  refine ⟨fun h => ?_, fun h => ?_, ?_⟩
  · rw [rowOut_wetness, rowOut_condensation, Estimated_Leaf_Wetness_mm,
      ite_gt_zero_eq_max, Estimated_Leaf_Wetness_mm_pre, if_pos h]
  · rw [rowOut_wetness, Estimated_Leaf_Wetness_mm, Estimated_Leaf_Wetness_mm_pre,
      if_neg (not_lt.mpr h)]
    simp
  · rw [rowOut_wetness]
    exact Estimated_Leaf_Wetness_mm_nonneg O cfg r

/-- C1 witness: the boundary row (70 F, above freezing) instantiates the
above-freezing equation and the non-negativity clamp. -/
theorem C1_final_wetness_witness :
    (rowOut oracleOne defaultConfig rowBoundary).estimated_leaf_wetness_mm =
      max 0 ((rowOut oracleOne defaultConfig rowBoundary).potential_condensation_mm +
        Rain_Interception_mm rowBoundary - Evaporation_mm oracleOne defaultConfig rowBoundary) ∧
    (rowFreezing.AIR_TEMP_F ≤ 32 ∧
      (rowOut oracleOne defaultConfig rowFreezing).estimated_leaf_wetness_mm = 0) ∧
    0 ≤ (rowOut oracleOne defaultConfig rowBoundary).estimated_leaf_wetness_mm :=
  ⟨(C1_final_wetness oracleOne defaultConfig rowBoundary).1 (by norm_num [rowBoundary]),
    ⟨by norm_num [rowFreezing],
      (C1_final_wetness oracleOne defaultConfig rowFreezing).2.1 (by norm_num [rowFreezing])⟩,
    (C1_final_wetness oracleOne defaultConfig rowBoundary).2.2⟩

/-- C2: for every input row, the published `Potential condensation of dew
(mm)` is `0` when the dew point depression is at least `critical_DPD`,
and equals the raw sensible-heat-exchange chain value when the depression
is below `critical_DPD`. -/
theorem C2_condensation_policy (O : Oracle) (cfg : Config) (r : RowIn) :
    (cfg.critical_DPD ≤ DPD r → (rowOut O cfg r).potential_condensation_mm = 0) ∧
    (DPD r < cfg.critical_DPD →
      (rowOut O cfg r).potential_condensation_mm = Potential_condensation_mm_raw O cfg r) := by
  constructor
  · intro h
    rw [rowOut_condensation, Potential_condensation_mm, if_neg (not_lt.mpr h)]
  · intro h
    rw [rowOut_condensation, Potential_condensation_mm, if_pos h]

/-- C2 witness: the boundary row has dew point depression 100/9, above
the 1.845 threshold, so its published condensation is zero; the inverted
row has depression −50/9, below the threshold, so its published
condensation is the raw chain value. -/
theorem C2_condensation_policy_witness :
    (rowOut oracleOne defaultConfig rowBoundary).potential_condensation_mm = 0 ∧
    (rowOut oracleOne defaultConfig rowInverted).potential_condensation_mm =
      Potential_condensation_mm_raw oracleOne defaultConfig rowInverted :=
  ⟨(C2_condensation_policy oracleOne defaultConfig rowBoundary).1
      (by norm_num [DPD, AIR_TEMP_C, DEWPOINT_C, rowBoundary, defaultConfig]),
    (C2_condensation_policy oracleOne defaultConfig rowInverted).2
      (by norm_num [DPD, AIR_TEMP_C, DEWPOINT_C, rowInverted, defaultConfig])⟩

/-- C3: for every input row, the rain interception term is exactly
`0.6` mm whenever `PRECIP_INCHES > 0`, regardless of the magnitude, and
exactly `0` whenever `PRECIP_INCHES = 0`. -/
theorem C3_rain_interception (r : RowIn) :
    (0 < r.PRECIP_INCHES → Rain_Interception_mm r = 0.6) ∧
    (r.PRECIP_INCHES = 0 → Rain_Interception_mm r = 0) := by
  constructor
  · intro h
    rw [Rain_Interception_mm, if_pos h]
  · intro h
    rw [Rain_Interception_mm, if_neg (by rw [h]; exact lt_irrefl 0)]

/-- C3 witness: the rainy row (0.1 inches) intercepts exactly 0.6 mm and
the dry boundary row intercepts 0 mm. -/
theorem C3_rain_interception_witness :
    Rain_Interception_mm rowRain = 0.6 ∧ Rain_Interception_mm rowBoundary = 0 :=
  ⟨(C3_rain_interception rowRain).1 (by norm_num [rowRain]),
    (C3_rain_interception rowBoundary).2 (by norm_num [rowBoundary])⟩

/-- C7: the estimator is deterministic and stateless.  The source enriches
the input frame in place, so a second call receives the frame mutated by
the first; reading the raw columns back out of the enriched frame
(`rawFields` after `enrich`) recovers the original input, hence the
second call produces exactly the first call's output for every oracle,
configuration and input table. -/
theorem C7_deterministic (O : Oracle) (cfg : Config) (data : List RowIn) :
    estimate_leaf_wetness O cfg (data.map (fun r => rawFields (enrich O cfg r))) =
      estimate_leaf_wetness O cfg data := by
  unfold estimate_leaf_wetness
  rw [List.map_map]
  rfl

/-- C8: row independence.  The estimator is exactly the row-wise map of
the per-row pipeline, and reindexing the input rows by any index list
(in particular any permutation) reindexes the output identically, with
each individual row's published values unchanged. -/
theorem C8_row_independence (O : Oracle) (cfg : Config) (rows : List RowIn) :
    estimate_leaf_wetness O cfg rows = rows.map (rowOut O cfg) ∧
    ∀ is : List ℕ,
      estimate_leaf_wetness O cfg (is.filterMap (fun i => rows[i]?)) =
        is.filterMap (fun i => (estimate_leaf_wetness O cfg rows)[i]?) := by
  refine ⟨rfl, fun is => ?_⟩
  unfold estimate_leaf_wetness
  rw [List.map_filterMap]
  simp [List.getElem?_map]

/-- C10: frame property.  No pipeline stage overwrites a raw input
column: the five raw fields read back from the enriched frame equal the
input row, and each published echo field equals the corresponding input
value. -/
theorem C10_raw_fields_preserved (O : Oracle) (cfg : Config) (r : RowIn) :
    rawFields (enrich O cfg r) = r ∧
    (rowOut O cfg r).AIR_TEMP_F = r.AIR_TEMP_F ∧
    (rowOut O cfg r).DEWPOINT_F = r.DEWPOINT_F ∧
    (rowOut O cfg r).WIND_SPEED_2M_MPH = r.WIND_SPEED_2M_MPH ∧
    (rowOut O cfg r).RELATIVE_HUMIDITY_pct = r.RELATIVE_HUMIDITY_pct :=
  ⟨rfl, rfl, rfl, rfl, rfl⟩

/-- C6: for every input row with non-positive `WIND_SPEED_2M_MPH`, the
mph to m/s conversion floors the wind speed to 0.001 m/s, and the
derived Reynolds number, Nusselt number and boundary layer resistance
are strictly positive (so every downstream division by them is by a
nonzero quantity and the chain stays well defined), for any oracle whose
`** 0.6` stand-in preserves positivity, as the real power function
does. -/
theorem C6_zero_wind_floor (O : Oracle) (r : RowIn)
    (hpow : ∀ x : ℚ, 0 < x → 0 < O.opow06 x)
    (hw : r.WIND_SPEED_2M_MPH ≤ 0) :
    Wind_Speed_ms r = 0.001 ∧
    0 < Reynolds_Number defaultConfig r ∧
    0 < Nusselt_Number O defaultConfig r ∧
    0 < rB O defaultConfig r := by
  refine ⟨?_, Reynolds_default_pos r, Nusselt_default_pos O r hpow, rB_default_pos O r hpow⟩
  unfold Wind_Speed_ms
  rw [if_neg (not_lt.mpr hw)]

/-- C6 witness: the calm row (zero wind) is floored to 0.001 m/s with a
positive Reynolds, Nusselt and boundary-layer-resistance chain. -/
theorem C6_zero_wind_floor_witness :
    Wind_Speed_ms rowCalm = 0.001 ∧
    0 < Reynolds_Number defaultConfig rowCalm ∧
    0 < Nusselt_Number oracleOne defaultConfig rowCalm ∧
    0 < rB oracleOne defaultConfig rowCalm :=
  C6_zero_wind_floor oracleOne rowCalm (fun _ _ => by norm_num [oracleOne])
    (by norm_num [rowCalm])

/-- C9: the published `Potential condensation of dew (mm)` is not clamped
to be non-negative: on the inverted row (dew point 60 F above the 50 F
air temperature, so the dew point depression is negative and below
`critical_DPD`) the published condensation is strictly negative, while
the published `Estimated Leaf Wetness (mm)` of the same row is still
non-negative, for any oracle whose exponential stand-in is positive and
whose `** 0.6` stand-in preserves positivity. -/
theorem C9_condensation_unclamped (O : Oracle)
    (hexp : ∀ x : ℚ, 0 < O.oexp x)
    (hpow : ∀ x : ℚ, 0 < x → 0 < O.opow06 x) :
    (rowOut O defaultConfig rowInverted).potential_condensation_mm < 0 ∧
    0 ≤ (rowOut O defaultConfig rowInverted).estimated_leaf_wetness_mm := by
  have hT : AIR_TEMP_C rowInverted + 237.3 ≠ 0 := by
    norm_num [AIR_TEMP_C, rowInverted]
  have hLHTC : 0 < Leaf_Heat_Transfer_Coefficient O defaultConfig rowInverted := by
    unfold Leaf_Heat_Transfer_Coefficient
    have h1 := hLW_default_pos rowInverted (by norm_num [AIR_TEMP_C, rowInverted])
    have h2 := hH_default_pos O rowInverted hpow
    have h3 := hET_default_pos O rowInverted hexp hpow hT
    linarith
  have hSA : 0 < Surface_Area defaultConfig := by
    norm_num [Surface_Area, defaultConfig]
  have hDPDneg : AIR_TEMP_C rowInverted - DEWPOINT_C rowInverted < 0 := by
    norm_num [AIR_TEMP_C, DEWPOINT_C, rowInverted]
  have hRhe : Rhe O defaultConfig rowInverted < 0 := by
    unfold Rhe
    exact mul_neg_of_pos_of_neg (mul_pos hLHTC hSA) hDPDneg
  have hgs : Potential_condensation_gs O defaultConfig rowInverted < 0 := by
    unfold Potential_condensation_gs
    have hdiv : Rhe O defaultConfig rowInverted /
        defaultConfig.latent_heat_of_condensation_J_kg < 0 :=
      div_neg_of_neg_of_pos hRhe (by norm_num [defaultConfig])
    linarith
  have hraw : Potential_condensation_mm_raw O defaultConfig rowInverted < 0 := by
    unfold Potential_condensation_mm_raw
    have hdiv : Potential_condensation_gs O defaultConfig rowInverted /
        (Surface_Area defaultConfig * 10000) < 0 :=
      div_neg_of_neg_of_pos hgs (by positivity)
    linarith
  constructor
  · rw [rowOut_condensation, Potential_condensation_mm,
      if_pos (show DPD rowInverted < defaultConfig.critical_DPD by
        norm_num [DPD, AIR_TEMP_C, DEWPOINT_C, rowInverted, defaultConfig])]
    exact hraw
  · rw [rowOut_wetness]
    exact Estimated_Leaf_Wetness_mm_nonneg O defaultConfig rowInverted

/-- C9 witness: the concrete constant-one oracle satisfies both oracle
hypotheses, so the inverted row publishes a strictly negative
condensation next to a non-negative wetness. -/
theorem C9_condensation_unclamped_witness :
    (rowOut oracleOne defaultConfig rowInverted).potential_condensation_mm < 0 ∧
    0 ≤ (rowOut oracleOne defaultConfig rowInverted).estimated_leaf_wetness_mm :=
  C9_condensation_unclamped oracleOne (fun _ => by norm_num [oracleOne])
    (fun _ _ => by norm_num [oracleOne])

end LeafWetness
